import Mathlib

/-!
Verification development for the tab prioritization and clustering engine of
the tabs-ai-clustering repository.

The engine exists in two near-duplicate copies:
* the extension-local client `GroqAIService` in src/utils/ai-service.js
  (definitions prefixed `ext_`), and
* the backend service `GroqService` in the backend groq service file
  (definitions prefixed `backend_`).

JavaScript features are embedded as follows:
* JS numbers used as priority means are modelled by ℚ (the ideal value of the
  float arithmetic); integer scores by ℤ; tab ids by ℕ.
* `Array.prototype.sort` with a consistent comparator is required by the
  language spec to be a stable sort; it is modelled by `List.insertionSort`
  (Mathlib's insertion sort is stable) with the relation "comparator ≤ 0".
* `localeCompare` is modelled as the code-point order on strings.
* A JS `Map` built from (id, tab) entries is modelled by `mapGet` below:
  on duplicate keys the later entry wins, hence the lookup searches the
  reversed list.
* Failure paths (fetch rejection, non-2xx, unusable response text) are
  modelled by explicit outcome datatypes; try/catch by case analysis.
* String methods that the source applies to page text and URLs are modelled
  by structural functions on `List Char` so that all definitions evaluate.
-/

namespace TabsAI

/-- Raw tab record handed to the analyzer (extension content extraction shape:
id, title, url, metaDescription, headings, textContent). -/
structure TabData where
  id : Nat
  title : String
  url : String
  metaDescription : String
  headings : List String
  textContent : String
deriving DecidableEq

/-- Per-tab analysis record as produced by the backend analyzer / consumed by
the clustering step (`tabSummaries` entries): id, title, url, summary,
priorityScore, priorityRationale, topics, and the optional error flag set by
the backend batch fallback. -/
structure TabAnalysis where
  id : Nat
  title : String
  url : String
  summary : String
  priorityScore : Int
  priorityRationale : String
  topics : List String
  error : Option String
deriving DecidableEq

instance : Inhabited TabAnalysis :=
  ⟨{ id := 0, title := "", url := "", summary := "", priorityScore := 0,
     priorityRationale := "", topics := [], error := none }⟩

/-- Cluster object. Candidate clusters parsed from the provider response
carry only name/description/tabIds; their `clusterPriority` field is dead
until `validateAndSortClusters` overwrites it, so candidates are modelled in
the same structure (with an arbitrary initial priority). -/
structure Cluster where
  name : String
  description : String
  tabIds : List Nat
  clusterPriority : ℚ
deriving DecidableEq

/-- Lookup in the JS `Map` built by `new Map(tabSummaries.map(tab => [tab.id, tab]))`;
later entries overwrite earlier ones, hence the search over the reversed list. -/
def mapGet (ts : List TabAnalysis) (i : Nat) : Option TabAnalysis :=
  ts.reverse.find? (fun t => t.id == i)

/-- Total version of `tabMap.get(id)` for use at places where the source has
already checked membership. -/
def getTab (ts : List TabAnalysis) (i : Nat) : TabAnalysis :=
  (mapGet ts i).getD default

/-- Score of the analysis a tab id references. -/
def score (ts : List TabAnalysis) (i : Nat) : Int :=
  (getTab ts i).priorityScore

/-- Title of the analysis a tab id references. -/
def titleOf (ts : List TabAnalysis) (i : Nat) : String :=
  (getTab ts i).title

/-- JS expression `tab?.priorityScore || 3` used by the fallback-clustering
comparator: a missing tab or a (falsy) zero score both yield 3. -/
def scoreOr3 (o : Option TabAnalysis) : Int :=
  match o with
  | none => 3
  | some t => if t.priorityScore = 0 then 3 else t.priorityScore

/-- Lexicographic "comparator ≤ 0" relation: strictly smaller first key, or
equal first keys and second key no larger.  This is the relation computed by
JS comparators of the shape `f(a) - f(b) || g(a).localeCompare(g(b))`. -/
def lexLe {α : Type} {β γ : Type} [LinearOrder β] [LinearOrder γ]
    (f : α → β) (g : α → γ) (a b : α) : Prop :=
  f a < f b ∨ (f a = f b ∧ g a ≤ g b)

/-- Single-key "comparator ≤ 0" relation for comparators `f(a) - f(b)`. -/
def keyLe {α : Type} {β : Type} [LinearOrder β] (f : α → β) (a b : α) : Prop :=
  f a ≤ f b

instance lexLe.decidableRel {α β γ : Type} [LinearOrder β] [LinearOrder γ]
    (f : α → β) (g : α → γ) : DecidableRel (lexLe f g) := fun a b => by
  unfold lexLe; exact inferInstance

instance lexLe.isTotal {α β γ : Type} [LinearOrder β] [LinearOrder γ]
    (f : α → β) (g : α → γ) : IsTotal α (lexLe f g) := by
  constructor
  intro a b
  rcases lt_trichotomy (f a) (f b) with h | h | h
  · exact Or.inl (Or.inl h)
  · rcases le_total (g a) (g b) with h2 | h2
    · exact Or.inl (Or.inr ⟨h, h2⟩)
    · exact Or.inr (Or.inr ⟨h.symm, h2⟩)
  · exact Or.inr (Or.inl h)

instance lexLe.isTrans {α β γ : Type} [LinearOrder β] [LinearOrder γ]
    (f : α → β) (g : α → γ) : IsTrans α (lexLe f g) := by
  constructor
  intro a b c hab hbc
  rcases hab with hab | ⟨hab1, hab2⟩
  · rcases hbc with hbc | ⟨hbc1, hbc2⟩
    · exact Or.inl (hab.trans hbc)
    · exact Or.inl (hbc1 ▸ hab)
  · rcases hbc with hbc | ⟨hbc1, hbc2⟩
    · exact Or.inl (hab1 ▸ hbc)
    · exact Or.inr ⟨hab1.trans hbc1, hab2.trans hbc2⟩

instance keyLe.decidableRel {α β : Type} [LinearOrder β] (f : α → β) :
    DecidableRel (keyLe f) := fun a b => by
  unfold keyLe; exact inferInstance

instance keyLe.isTotal {α β : Type} [LinearOrder β] (f : α → β) :
    IsTotal α (keyLe f) :=
  ⟨fun a b => le_total (f a) (f b)⟩

instance keyLe.isTrans {α β : Type} [LinearOrder β] (f : α → β) :
    IsTrans α (keyLe f) :=
  ⟨fun _ _ _ h1 h2 => le_trans h1 h2⟩

/-- Within-cluster comparator of `validateAndSortClusters`
(`tabA.priorityScore - tabB.priorityScore`, ties by `title.localeCompare`),
read through the tab map. -/
abbrev tabLe (ts : List TabAnalysis) : Nat → Nat → Prop :=
  lexLe (score ts) (titleOf ts)

/-- Comparator used for the unassigned tabs
(`a.priorityScore - b.priorityScore || a.title.localeCompare(b.title)`),
applied directly to analysis records. -/
abbrev analysisLe : TabAnalysis → TabAnalysis → Prop :=
  lexLe TabAnalysis.priorityScore TabAnalysis.title

/-- Within-cluster comparator of `fallbackClustering`
(`(tabA?.priorityScore || 3) - (tabB?.priorityScore || 3)`) — score only,
no title tie-break. -/
abbrev fbLe (ts : List TabAnalysis) : Nat → Nat → Prop :=
  keyLe (fun i => scoreOr3 (mapGet ts i))

/-- Cluster comparator `a.clusterPriority - b.clusterPriority`. -/
abbrev clusterLe : Cluster → Cluster → Prop :=
  keyLe Cluster.clusterPriority

/-- JS `Math.round(q * 10) / 10` (round half toward +∞, one decimal). -/
def round1 (q : ℚ) : ℚ :=
  ((⌊q * 10 + 1 / 2⌋ : ℤ) : ℚ) / 10

/-- Mean of the scores referenced by a list of tab ids
(`tabIds.reduce((sum, id) => sum + tabMap.get(id).priorityScore, 0) / tabIds.length`). -/
def idsMean (ts : List TabAnalysis) (ids : List Nat) : ℚ :=
  (((ids.map (score ts)).sum : ℤ) : ℚ) / (ids.length : ℚ)

/-- Mean of the scores of a list of analysis records
(`unassignedTabs.reduce((sum, tab) => sum + tab.priorityScore, 0) / unassignedTabs.length`). -/
def analysesMean (us : List TabAnalysis) : ℚ :=
  (((us.map (·.priorityScore)).sum : ℤ) : ℚ) / (us.length : ℚ)

/-- Mean used by `fallbackClustering`
(`tabIds.reduce((sum, id) => sum + (tabMap.get(id)?.priorityScore || 3), 0) / tabIds.length`). -/
def fbMean (ts : List TabAnalysis) (ids : List Nat) : ℚ :=
  (((ids.map (fun i => scoreOr3 (mapGet ts i))).sum : ℤ) : ℚ) / (ids.length : ℚ)

/-! ### validateAndSortClusters — extension copy (src/utils/ai-service.js) -/

/-- Filter pass of `cluster.tabIds.filter(id => { const isValid = tabMap.has(id)
&& !assignedTabIds.has(id); if (isValid) assignedTabIds.add(id); return isValid; })`:
returns the kept ids together with the updated assigned set. -/
def ext_claimIds (ts : List TabAnalysis) : List Nat → List Nat → List Nat × List Nat
  | [], assigned => ([], assigned)
  | i :: rest, assigned =>
    if (mapGet ts i).isSome = true ∧ i ∉ assigned then
      ((i :: (ext_claimIds ts rest (i :: assigned)).1),
        (ext_claimIds ts rest (i :: assigned)).2)
    else
      ext_claimIds ts rest assigned

/-- Map pass of `validateAndSortClusters`: per cluster, claim the valid
unclaimed ids, sort them by (score, title), and overwrite `clusterPriority`
with the rounded mean of the kept members. -/
def ext_processClusters (ts : List TabAnalysis) :
    List Cluster → List Nat → List Cluster × List Nat
  | [], assigned => ([], assigned)
  | c :: cs, assigned =>
    let kept := ext_claimIds ts c.tabIds assigned
    let sorted := List.insertionSort (tabLe ts) kept.1
    let rest := ext_processClusters ts cs kept.2
    ({ name := c.name, description := c.description, tabIds := sorted,
       clusterPriority := round1 (idsMean ts sorted) } :: rest.1, rest.2)

/-- Candidate clusters surviving the shape filter
`clusters.filter(cluster => cluster.name && cluster.tabIds && Array.isArray(cluster.tabIds))`;
in the typed embedding only the name-truthiness test is non-trivial. -/
def ext_named (clusters : List Cluster) : List Cluster :=
  clusters.filter (fun c => !(c.name == ""))

/-- Result of the filter+map pass over the named candidates, started with an
empty assigned set. -/
def ext_proc (clusters : List Cluster) (ts : List TabAnalysis) :
    List Cluster × List Nat :=
  ext_processClusters ts (ext_named clusters) []

/-- Clusters kept by `.filter(cluster => cluster.tabIds.length > 0)`. -/
def ext_valid (clusters : List Cluster) (ts : List TabAnalysis) : List Cluster :=
  (ext_proc clusters ts).1.filter (fun c => !(c.tabIds.isEmpty))

/-- Unassigned analyses: `tabSummaries.filter(tab => !assignedTabIds.has(tab.id))`. -/
def ext_unassigned (clusters : List Cluster) (ts : List TabAnalysis) :
    List TabAnalysis :=
  ts.filter (fun t => decide (t.id ∉ (ext_proc clusters ts).2))

/-- Synthesized catch-all cluster for unassigned tabs: name "Other",
description "Uncategorized tabs", members sorted by (score, title), priority
the UNROUNDED mean of the members. -/
def ext_otherCluster (us : List TabAnalysis) : Cluster :=
  { name := "Other", description := "Uncategorized tabs",
    tabIds := (List.insertionSort analysisLe us).map (·.id),
    clusterPriority := analysesMean us }

/-- Extension `validateAndSortClusters(clusters, tabSummaries)` for array
inputs (a non-array argument is routed to `fallbackClustering` by the source
and never reaches this pipeline). -/
def ext_validateAndSortClusters (clusters : List Cluster) (ts : List TabAnalysis) :
    List Cluster :=
  List.insertionSort clusterLe
    (if ext_unassigned clusters ts = [] then ext_valid clusters ts
     else ext_valid clusters ts ++ [ext_otherCluster (ext_unassigned clusters ts)])

/-! ### validateAndSortClusters — backend copy (GroqService) -/

/-- Backend copy of the tabIds filter pass (identical source text). -/
def backend_claimIds (ts : List TabAnalysis) : List Nat → List Nat → List Nat × List Nat
  | [], assigned => ([], assigned)
  | i :: rest, assigned =>
    if (mapGet ts i).isSome = true ∧ i ∉ assigned then
      ((i :: (backend_claimIds ts rest (i :: assigned)).1),
        (backend_claimIds ts rest (i :: assigned)).2)
    else
      backend_claimIds ts rest assigned

/-- Backend copy of the per-cluster map pass (identical source text). -/
def backend_processClusters (ts : List TabAnalysis) :
    List Cluster → List Nat → List Cluster × List Nat
  | [], assigned => ([], assigned)
  | c :: cs, assigned =>
    let kept := backend_claimIds ts c.tabIds assigned
    let sorted := List.insertionSort (tabLe ts) kept.1
    let rest := backend_processClusters ts cs kept.2
    ({ name := c.name, description := c.description, tabIds := sorted,
       clusterPriority := round1 (idsMean ts sorted) } :: rest.1, rest.2)

/-- Backend copy of the candidate shape filter. -/
def backend_named (clusters : List Cluster) : List Cluster :=
  clusters.filter (fun c => !(c.name == ""))

/-- Backend copy of the filter+map pass. -/
def backend_proc (clusters : List Cluster) (ts : List TabAnalysis) :
    List Cluster × List Nat :=
  backend_processClusters ts (backend_named clusters) []

/-- Backend copy of the nonempty-cluster filter. -/
def backend_valid (clusters : List Cluster) (ts : List TabAnalysis) : List Cluster :=
  (backend_proc clusters ts).1.filter (fun c => !(c.tabIds.isEmpty))

/-- Backend copy of the unassigned-tab filter. -/
def backend_unassigned (clusters : List Cluster) (ts : List TabAnalysis) :
    List TabAnalysis :=
  ts.filter (fun t => decide (t.id ∉ (backend_proc clusters ts).2))

/-- Backend copy of the synthesized "Other" cluster. -/
def backend_otherCluster (us : List TabAnalysis) : Cluster :=
  { name := "Other", description := "Uncategorized tabs",
    tabIds := (List.insertionSort analysisLe us).map (·.id),
    clusterPriority := analysesMean us }

/-- Backend `validateAndSortClusters(clusters, tabSummaries)` for array inputs. -/
def backend_validateAndSortClusters (clusters : List Cluster) (ts : List TabAnalysis) :
    List Cluster :=
  List.insertionSort clusterLe
    (if backend_unassigned clusters ts = [] then backend_valid clusters ts
     else backend_valid clusters ts ++ [backend_otherCluster (backend_unassigned clusters ts)])

/-! ### URL / string helpers for the domain-based fallback -/

/-- Remainder of `l` after the pattern `pat`, when `pat` is a prefix of `l`. -/
def dropPat? (pat : List Char) (l : List Char) : Option (List Char) :=
  match pat, l with
  | [], rest => some rest
  | _ :: _, [] => none
  | p :: ps, c :: cs => if p = c then dropPat? ps cs else none

/-- Split at the first occurrence of the character sequence `pat`: returns the
part before it and the part after it, or none when `pat` does not occur. -/
def breakOnSeq (pat : List Char) : List Char → Option (List Char × List Char)
  | [] =>
    match dropPat? pat [] with
    | some r => some ([], r)
    | none => none
  | c :: cs =>
    match dropPat? pat (c :: cs) with
    | some r => some ([], r)
    | none =>
      match breakOnSeq pat cs with
      | some p => some (c :: p.1, p.2)
      | none => none

/-- Modelled from the source line `new URL(tab.url).hostname`: the host of a
URL of the shape scheme://host[:port][/path...][?query][#frag].  Returns none
— modelling the `URL` constructor throwing — when the string has no "://"
separator or an empty scheme or host.  (Full WHATWG URL parsing is a platform
builtin; this model agrees with it on such ordinary URLs.) -/
def hostname (url : String) : Option String :=
  match breakOnSeq ("://".data) url.data with
  | none => none
  | some p =>
    match p.1, p.2.takeWhile (fun c => decide (c ≠ '/' ∧ c ≠ ':' ∧ c ≠ '?' ∧ c ≠ '#')) with
    | [], _ => none
    | _, [] => none
    | _ :: _, h => some (String.mk h)

/-- JS `hostname.replace('www.', '')`: removes the FIRST occurrence of
"www." only. -/
def stripWww (host : String) : String :=
  match breakOnSeq ("www.".data) host.data with
  | none => host
  | some p => String.mk (p.1 ++ p.2)

/-- JS `domain.split('.')[0]`. -/
def firstLabel (domain : String) : String :=
  String.mk (domain.data.takeWhile (fun c => decide (c ≠ '.')))

/-- JS `key.charAt(0).toUpperCase() + key.slice(1)`. -/
def capitalizeStr (s : String) : String :=
  match s.data with
  | [] => s
  | c :: cs => String.mk (c.toUpper :: cs)

/-! ### fallbackClustering — extension copy -/

/-- One step of the extension grouping loop: group the tab under the first
label of its stripped host; a tab whose URL fails to parse is SKIPPED
(`catch (e) { /* Invalid URL, skip */ }`).  JS `Map` insertion order is
preserved: new keys are appended, existing groups get the id pushed. -/
def ext_addToGroups (groups : List (String × Cluster)) (t : TabAnalysis) :
    List (String × Cluster) :=
  match hostname t.url with
  | none => groups
  | some host =>
    let domain := stripWww host
    let key := firstLabel domain
    if groups.any (fun g => g.1 == key) then
      groups.map (fun g =>
        if g.1 == key then (g.1, { g.2 with tabIds := g.2.tabIds ++ [t.id] }) else g)
    else
      groups ++ [(key,
        { name := capitalizeStr key, description := "Pages from " ++ domain,
          tabIds := [t.id], clusterPriority := 0 })]

/-- Extension `fallbackClustering(tabSummaries)`: group by domain key, sort
members by score only, set the UNROUNDED mean priority, sort clusters by
priority. -/
def ext_fallbackClustering (ts : List TabAnalysis) : List Cluster :=
  let groups := ts.foldl ext_addToGroups []
  let result := ((groups.map Prod.snd).filter (fun c => !(c.tabIds.isEmpty))).map
    (fun c =>
      let sorted := List.insertionSort (fbLe ts) c.tabIds
      { c with tabIds := sorted, clusterPriority := fbMean ts sorted })
  List.insertionSort clusterLe result

/-! ### fallbackClustering — backend copy -/

/-- One step of the backend grouping loop.  Differences from the extension
copy: an unparseable URL is routed to an explicit "other" bucket
(name "Other", description "Miscellaneous pages"), and an empty first label
falls back to the key "unknown" (`domain.split('.')[0] || 'unknown'`). -/
def backend_addToGroups (groups : List (String × Cluster)) (t : TabAnalysis) :
    List (String × Cluster) :=
  match hostname t.url with
  | none =>
    if groups.any (fun g => g.1 == "other") then
      groups.map (fun g =>
        if g.1 == "other" then (g.1, { g.2 with tabIds := g.2.tabIds ++ [t.id] }) else g)
    else
      groups ++ [("other",
        { name := "Other", description := "Miscellaneous pages",
          tabIds := [t.id], clusterPriority := 0 })]
  | some host =>
    let domain := stripWww host
    let key0 := firstLabel domain
    let key := if key0 = "" then "unknown" else key0
    if groups.any (fun g => g.1 == key) then
      groups.map (fun g =>
        if g.1 == key then (g.1, { g.2 with tabIds := g.2.tabIds ++ [t.id] }) else g)
    else
      groups ++ [(key,
        { name := capitalizeStr key, description := "Pages from " ++ domain,
          tabIds := [t.id], clusterPriority := 0 })]

/-- Backend `fallbackClustering(tabSummaries)` (same post-processing as the
extension copy). -/
def backend_fallbackClustering (ts : List TabAnalysis) : List Cluster :=
  let groups := ts.foldl backend_addToGroups []
  let result := ((groups.map Prod.snd).filter (fun c => !(c.tabIds.isEmpty))).map
    (fun c =>
      let sorted := List.insertionSort (fbLe ts) c.tabIds
      { c with tabIds := sorted, clusterPriority := fbMean ts sorted })
  List.insertionSort clusterLe result

/-! ### Tab analyzer models -/

/-- Fields of the JSON object recovered from the provider response by
`JSON.parse(jsonMatch[0])`, after the per-field coercions the source applies:
`priorityScore` holds the `parseInt` result (`none` models NaN, i.e. a
non-numeric or absent score); string fields are `none` when absent. -/
structure ParsedAnalysis where
  summary : Option String
  priorityScore : Option Int
  priorityRationale : Option String
  topics : Option (List String)
deriving DecidableEq

/-- JS `parsed.field || defaultString`, where an absent field and the empty
(falsy) string both fall through to the default. -/
def strOr (o : Option String) (d : String) : String :=
  match o with
  | none => d
  | some s => if s = "" then d else s

/-- JS `s || d` on strings, where only the empty string is falsy. -/
def strOrD (s d : String) : String :=
  if s = "" then d else s

/-- JS `parseInt(parsed.priorityScore) || 3`: NaN (none) and the falsy 0 both
become 3; any other integer passes through. -/
def intOr3 (o : Option Int) : Int :=
  match o with
  | none => 3
  | some n => if n = 0 then 3 else n

/-- Final score computation
`Math.min(5, Math.max(1, parseInt(parsed.priorityScore) || 3))`. -/
def clampScore (o : Option Int) : Int :=
  min 5 (max 1 (intOr3 o))

/-- Character-level test for JS `text.includes(pat)` (pat nonempty here). -/
def occursIn (text pat : String) : Bool :=
  (breakOnSeq pat.data text.data).isSome

/-- The fixed topic vocabulary of `extractBasicTopics`. -/
def topicVocabulary : List String :=
  ["technology", "programming", "business", "science", "news", "education",
   "documentation", "tutorial", "api", "framework"]

/-- Extension `extractBasicTopics(tabData)`: lower-case
title + metaDescription + headings, keep the vocabulary words that occur,
up to 3. -/
def extractBasicTopics (t : TabData) : List String :=
  let text := String.mk
    ((t.title ++ " " ++ t.metaDescription ++ " " ++
      String.intercalate " " t.headings).data.map Char.toLower)
  (topicVocabulary.filter (fun d => occursIn text d)).take 3

/-- Stop-word list of the backend `extractTopics`. -/
def commonWords : List String :=
  ["the", "a", "an", "and", "or", "but", "in", "on", "at", "to", "for",
   "of", "with", "by", "is", "are", "was", "were", "this", "that", "these", "those"]

/-- Splitting on runs of non-word characters, JS `content.split(/\W+/)`;
empty pieces are discarded by the length filter downstream exactly as in JS. -/
def splitWords (s : String) : List String :=
  (s.data.splitOnP (fun c => !(c.isAlphanum || c == '_'))).map String.mk

/-- Backend `extractTopics(text, tab)`: words of length > 3 of the lower-cased
response text + title + metaDescription that are not stop words, up to 5. -/
def extractTopics (text : String) (t : TabData) : List String :=
  let content := String.mk
    ((text ++ " " ++ t.title ++ " " ++ t.metaDescription).data.map Char.toLower)
  ((splitWords content).filter
    (fun w => w.length > 3 && !(commonWords.contains w))).take 5

/-- Outcome of one extension per-tab provider call, as observed by
`analyzeAndPrioritizeTab` after the try block: either any failure (fetch
rejection, non-2xx status, response with no `{...}` match, or a
`JSON.parse` throw — all reach the same catch), or a parsed JSON object. -/
inductive AnalyzeOutcome where
  | failure
  | parsed (p : ParsedAnalysis)
deriving DecidableEq

/-- Result object of the extension `analyzeAndPrioritizeTab` (its return
value carries no id/url and no error field). -/
structure ExtAnalysisResult where
  summary : String
  priorityScore : Int
  priorityRationale : String
  topics : List String
deriving DecidableEq

/-- Extension `analyzeAndPrioritizeTab(tabData)` as a function of the provider
outcome: the success branch applies the field defaults and the score clamp;
the catch branch returns the degraded record (score 3, topics from the
vocabulary heuristic, no error field). -/
def ext_analyzeAndPrioritizeTab (t : TabData) : AnalyzeOutcome → ExtAnalysisResult
  | .parsed p =>
    { summary := strOr p.summary t.title,
      priorityScore := clampScore p.priorityScore,
      priorityRationale := strOr p.priorityRationale "Standard content",
      topics := p.topics.getD (extractBasicTopics t) }
  | .failure =>
    { summary := t.title ++ " - " ++ strOrD t.metaDescription "Web page content",
      priorityScore := 3,
      priorityRationale := "Unable to analyze - default priority assigned",
      topics := extractBasicTopics t }

/-- Outcome of one backend per-tab provider call: `requestError` models
`makeGroqRequest` throwing (fetch rejection or non-2xx status);
`content text p` models a 2xx response whose message text is `text`, with
`p` the JSON object recovered by the match+parse step (`none` when no
`{...}` match or when `JSON.parse` throws — both land in the bottom
fallback return of the source). -/
inductive BackendTabOutcome where
  | requestError (msg : String)
  | content (text : String) (p : Option ParsedAnalysis)
deriving DecidableEq

/-- Backend `analyzeAndPrioritizeTab(tab)`: a request error propagates
(`Except.error`); a parsed object yields the success record; an unusable
response body yields the inline degraded record (summary from the first 200
characters of the response text, score 3, topics from the word heuristic). -/
def backend_analyzeAndPrioritizeTab (t : TabData) :
    BackendTabOutcome → Except String TabAnalysis
  | .requestError m => .error m
  | .content text p =>
    match p with
    | some parsed =>
      .ok { id := t.id, title := t.title, url := t.url,
            summary := strOr parsed.summary t.title,
            priorityScore := clampScore parsed.priorityScore,
            priorityRationale := strOr parsed.priorityRationale "Standard content",
            topics := parsed.topics.getD (extractTopics text t),
            error := none }
    | none =>
      .ok { id := t.id, title := t.title, url := t.url,
            summary := text.take 200,
            priorityScore := 3,
            priorityRationale := "Unable to determine priority",
            topics := extractTopics text t,
            error := none }

/-- Degraded record built by the `.catch` handler in the backend
`analyzeTabs` batch: summary from title + metaDescription, score 3,
rationale "Analysis unavailable", EMPTY topics, error set. -/
def backendDegraded (t : TabData) (errMsg : String) : TabAnalysis :=
  { id := t.id, title := t.title, url := t.url,
    summary := t.title ++ " - " ++ strOrD t.metaDescription "Web page content",
    priorityScore := 3,
    priorityRationale := "Analysis unavailable",
    topics := [],
    error := some errMsg }

/-- Step 1 of the backend `analyzeTabs` batch:
`Promise.all(tabs.map(tab => analyzeAndPrioritizeTab(tab).catch(err => ...)))` —
each tab is analyzed independently and a per-tab failure is replaced by its
degraded record. -/
def backend_analyzeTabsSummaries (outcome : TabData → BackendTabOutcome)
    (tabs : List TabData) : List TabAnalysis :=
  tabs.map (fun t =>
    match backend_analyzeAndPrioritizeTab t (outcome t) with
    | .ok a => a
    | .error e => backendDegraded t e)

/-! ### clusterAndSortTabs entry points -/

/-- Outcome of the single clustering provider call: `providerFailure` models
the request throwing (fetch rejection or non-2xx); `noJson` models a 2xx
response text from which no JSON array is recoverable (no bracket match and,
in the backend, `JSON.parse` of the full text throwing as well); `parsed`
models a recovered JSON array of candidate clusters. -/
inductive ClusterOutcome where
  | providerFailure
  | noJson
  | parsed (clusters : List Cluster)
deriving DecidableEq

/-- Extension `clusterAndSortTabs(tabSummaries)`: with no API key or fewer
than 2 analyses it returns `fallbackClustering` directly; otherwise a
provider failure or unusable response is caught and also yields
`fallbackClustering`, while a parsed array is validated. -/
def ext_clusterAndSortTabs (hasApiKey : Bool) (o : ClusterOutcome)
    (ts : List TabAnalysis) : List Cluster :=
  if hasApiKey = false ∨ ts.length < 2 then ext_fallbackClustering ts
  else
    match o with
    | .providerFailure => ext_fallbackClustering ts
    | .noJson => ext_fallbackClustering ts
    | .parsed cs => ext_validateAndSortClusters cs ts

/-- Single cluster returned by the backend for batches of fewer than 2
analyses; its priority is `tabSummaries[0]?.priorityScore || 3`. -/
def allTabsCluster (ts : List TabAnalysis) : Cluster :=
  { name := "All Tabs", description := "All your open tabs",
    tabIds := ts.map (·.id),
    clusterPriority :=
      match ts with
      | [] => 3
      | t :: _ => if t.priorityScore = 0 then 3 else (t.priorityScore : ℚ) }

/-- Backend `clusterAndSortTabs(tabSummaries)`: fewer than 2 analyses yield
the "All Tabs" cluster; a provider failure is caught and yields
`fallbackClustering`; a response with no recoverable JSON makes
`parseClusteringResponse` RETURN `fallbackClustering(tabSummaries)`, which the
caller then passes through `validateAndSortClusters`; a parsed array is
validated. -/
def backend_clusterAndSortTabs (o : ClusterOutcome) (ts : List TabAnalysis) :
    List Cluster :=
  if ts.length < 2 then [allTabsCluster ts]
  else
    match o with
    | .providerFailure => backend_fallbackClustering ts
    | .noJson => backend_validateAndSortClusters (backend_fallbackClustering ts) ts
    | .parsed cs => backend_validateAndSortClusters cs ts

/-! ### General lemmas about the tab map -/

theorem mapGet_isSome_iff (ts : List TabAnalysis) (i : Nat) :
    (mapGet ts i).isSome = true ↔ i ∈ ts.map (·.id) := by
  unfold mapGet
  rw [List.find?_isSome]
  simp only [List.mem_reverse, beq_iff_eq, List.mem_map]

theorem find?_id_of_nodup :
    ∀ (l : List TabAnalysis), (l.map (·.id)).Nodup →
      ∀ t ∈ l, l.find? (fun x => x.id == t.id) = some t := by
  intro l
  induction l with
  | nil => intro _ t ht; cases ht
  | cons x xs ih =>
    intro hnd t ht
    rw [List.map_cons, List.nodup_cons] at hnd
    rcases List.mem_cons.mp ht with rfl | hmem
    · simp [List.find?]
    · have hxt : (x.id == t.id) = false := by
        rw [beq_eq_false_iff_ne]
        intro hEq
        exact hnd.1 (hEq ▸ List.mem_map.mpr ⟨t, hmem, rfl⟩)
      rw [List.find?_cons_of_neg _ (by simp [hxt])]
      exact ih hnd.2 t hmem

theorem mapGet_self (ts : List TabAnalysis) (h : (ts.map (·.id)).Nodup) :
    ∀ t ∈ ts, mapGet ts t.id = some t := by
  intro t ht
  unfold mapGet
  exact find?_id_of_nodup ts.reverse
    (by rw [List.map_reverse, List.nodup_reverse]; exact h)
    t (List.mem_reverse.mpr ht)

/-! ### Lemmas about the id-claiming pass -/

theorem ext_claimIds_assigned_perm (ts : List TabAnalysis) :
    ∀ (ids a : List Nat),
      (ext_claimIds ts ids a).2.Perm ((ext_claimIds ts ids a).1 ++ a) := by
  intro ids
  induction ids with
  | nil => intro a; simp [ext_claimIds]
  | cons i rest ih =>
    intro a
    by_cases hc : (mapGet ts i).isSome = true ∧ i ∉ a
    · simp only [ext_claimIds, if_pos hc]
      exact (ih (i :: a)).trans List.perm_middle
    · simp only [ext_claimIds, if_neg hc]
      exact ih a

theorem ext_claimIds_assigned_nodup (ts : List TabAnalysis) :
    ∀ (ids a : List Nat), a.Nodup → (ext_claimIds ts ids a).2.Nodup := by
  intro ids
  induction ids with
  | nil => intro a ha; simpa [ext_claimIds] using ha
  | cons i rest ih =>
    intro a ha
    by_cases hc : (mapGet ts i).isSome = true ∧ i ∉ a
    · simp only [ext_claimIds, if_pos hc]
      exact ih (i :: a) (List.nodup_cons.mpr ⟨hc.2, ha⟩)
    · simp only [ext_claimIds, if_neg hc]
      exact ih a ha

theorem ext_claimIds_kept_valid (ts : List TabAnalysis) :
    ∀ (ids a : List Nat), ∀ i ∈ (ext_claimIds ts ids a).1,
      (mapGet ts i).isSome = true := by
  intro ids
  induction ids with
  | nil => intro a i hi; simp [ext_claimIds] at hi
  | cons j rest ih =>
    intro a i hi
    by_cases hc : (mapGet ts j).isSome = true ∧ j ∉ a
    · simp only [ext_claimIds, if_pos hc] at hi
      rcases List.mem_cons.mp hi with rfl | hmem
      · exact hc.1
      · exact ih (j :: a) i hmem
    · simp only [ext_claimIds, if_neg hc] at hi
      exact ih a i hi

theorem ext_claimIds_of_valid (ts : List TabAnalysis) :
    ∀ (ids a : List Nat), ids.Nodup →
      (∀ i ∈ ids, (mapGet ts i).isSome = true ∧ i ∉ a) →
      ext_claimIds ts ids a = (ids, ids.reverse ++ a) := by
  intro ids
  induction ids with
  | nil => intro a _ _; simp [ext_claimIds]
  | cons i rest ih =>
    intro a hnd hall
    have hc : (mapGet ts i).isSome = true ∧ i ∉ a := hall i (List.mem_cons_self _ _)
    have hrest : ext_claimIds ts rest (i :: a) = (rest, rest.reverse ++ (i :: a)) := by
      apply ih (i :: a) (List.nodup_cons.mp hnd).2
      intro j hj
      refine ⟨(hall j (List.mem_cons_of_mem i hj)).1, ?_⟩
      intro hmem
      rcases List.mem_cons.mp hmem with rfl | hmem2
      · exact (List.nodup_cons.mp hnd).1 hj
      · exact (hall j (List.mem_cons_of_mem i hj)).2 hmem2
    simp only [ext_claimIds, if_pos hc, hrest]
    simp

/-! ### Lemmas about the per-cluster pass -/

theorem perm_rotate {α : Type} (x x2 y z : List α) (h : x.Perm x2) :
    (y ++ (x ++ z)).Perm (x2 ++ (y ++ z)) := by
  have e1 : y ++ (x ++ z) = (y ++ x) ++ z := (List.append_assoc _ _ _).symm
  rw [e1]
  refine (List.Perm.append_right z List.perm_append_comm).trans ?_
  rw [List.append_assoc]
  exact List.Perm.append_right _ h

theorem ext_processClusters_assigned_perm (ts : List TabAnalysis) :
    ∀ (cs : List Cluster) (a : List Nat),
      (ext_processClusters ts cs a).2.Perm
        ((((ext_processClusters ts cs a).1.map (·.tabIds)).flatten) ++ a) := by
  intro cs
  induction cs with
  | nil => intro a; simp [ext_processClusters]
  | cons c rest ih =>
    intro a
    simp only [ext_processClusters, List.map_cons, List.flatten_cons, List.append_assoc]
    refine (ih (ext_claimIds ts c.tabIds a).2).trans ?_
    have h1 : (ext_claimIds ts c.tabIds a).2.Perm
        ((ext_claimIds ts c.tabIds a).1 ++ a) := ext_claimIds_assigned_perm ts _ a
    have h2 : (ext_claimIds ts c.tabIds a).1.Perm
        (List.insertionSort (tabLe ts) (ext_claimIds ts c.tabIds a).1) :=
      (List.perm_insertionSort _ _).symm
    exact (List.Perm.append_left _ h1).trans (perm_rotate _ _ _ _ h2)

theorem ext_processClusters_assigned_nodup (ts : List TabAnalysis) :
    ∀ (cs : List Cluster) (a : List Nat), a.Nodup →
      (ext_processClusters ts cs a).2.Nodup := by
  intro cs
  induction cs with
  | nil => intro a ha; simpa [ext_processClusters] using ha
  | cons c rest ih =>
    intro a ha
    simp only [ext_processClusters]
    exact ih _ (ext_claimIds_assigned_nodup ts c.tabIds a ha)

theorem ext_processClusters_assigned_valid (ts : List TabAnalysis) :
    ∀ (cs : List Cluster) (a : List Nat), ∀ i ∈ (ext_processClusters ts cs a).2,
      (mapGet ts i).isSome = true ∨ i ∈ a := by
  intro cs
  induction cs with
  | nil => intro a i hi; simp only [ext_processClusters] at hi; exact Or.inr hi
  | cons c rest ih =>
    intro a i hi
    simp only [ext_processClusters] at hi
    rcases ih _ i hi with h | h
    · exact Or.inl h
    · have := (ext_claimIds_assigned_perm ts c.tabIds a).mem_iff.mp h
      rcases List.mem_append.mp this with h2 | h2
      · exact Or.inl (ext_claimIds_kept_valid ts c.tabIds a i h2)
      · exact Or.inr h2

theorem ext_processClusters_mem (ts : List TabAnalysis) :
    ∀ (cs : List Cluster) (a : List Nat), ∀ c ∈ (ext_processClusters ts cs a).1,
      (∃ d ∈ cs, c.name = d.name) ∧
      List.Sorted (tabLe ts) c.tabIds ∧
      c.clusterPriority = round1 (idsMean ts c.tabIds) ∧
      (∀ i ∈ c.tabIds, (mapGet ts i).isSome = true) := by
  intro cs
  induction cs with
  | nil => intro a c hc; simp [ext_processClusters] at hc
  | cons d rest ih =>
    intro a c hc
    simp only [ext_processClusters, List.mem_cons] at hc
    rcases hc with rfl | hc
    · refine ⟨⟨d, List.mem_cons_self _ _, rfl⟩, ?_, rfl, ?_⟩
      · exact List.sorted_insertionSort _ _
      · intro i hi
        exact ext_claimIds_kept_valid ts d.tabIds a i
          ((List.perm_insertionSort (tabLe ts) _).mem_iff.mp hi)
    · rcases ih _ c hc with ⟨⟨e, he, hname⟩, hrest⟩
      exact ⟨⟨e, List.mem_cons_of_mem d he, hname⟩, hrest⟩

theorem ext_processClusters_of_valid (ts : List TabAnalysis) :
    ∀ (V : List Cluster) (A : List Nat),
      (∀ c ∈ V, List.Sorted (tabLe ts) c.tabIds) →
      (∀ c ∈ V, ∀ i ∈ c.tabIds, (mapGet ts i).isSome = true) →
      (((V.map (·.tabIds)).flatten ++ A).Nodup) →
      ext_processClusters ts V A =
        (V.map (fun c =>
          { name := c.name, description := c.description, tabIds := c.tabIds,
            clusterPriority := round1 (idsMean ts c.tabIds) }),
         ((V.map (·.tabIds)).flatten).reverse ++ A) := by
  intro V
  induction V with
  | nil => intro A _ _ _; simp [ext_processClusters]
  | cons c rest ih =>
    intro A hsort hvalid hnd
    simp only [List.map_cons, List.flatten_cons] at hnd
    have hnd2 := hnd
    rw [List.append_assoc, List.nodup_append] at hnd2
    have hclaim : ext_claimIds ts c.tabIds A = (c.tabIds, c.tabIds.reverse ++ A) := by
      apply ext_claimIds_of_valid ts c.tabIds A hnd2.1
      intro i hi
      refine ⟨hvalid c (List.mem_cons_self _ _) i hi, ?_⟩
      intro hiA
      exact hnd2.2.2 hi (List.mem_append_right _ hiA)
    have hsorted : List.insertionSort (tabLe ts) c.tabIds = c.tabIds :=
      (hsort c (List.mem_cons_self _ _)).insertionSort_eq
    have hrest : ext_processClusters ts rest (c.tabIds.reverse ++ A) =
        (rest.map (fun c =>
          { name := c.name, description := c.description, tabIds := c.tabIds,
            clusterPriority := round1 (idsMean ts c.tabIds) }),
         ((rest.map (·.tabIds)).flatten).reverse ++ (c.tabIds.reverse ++ A)) := by
      apply ih _ (fun d hd => hsort d (List.mem_cons_of_mem c hd))
        (fun d hd => hvalid d (List.mem_cons_of_mem c hd))
      have hperm : ((rest.map (·.tabIds)).flatten ++ (c.tabIds.reverse ++ A)).Perm
          (c.tabIds ++ ((rest.map (·.tabIds)).flatten ++ A)) :=
        perm_rotate _ _ _ _ (List.reverse_perm c.tabIds)
      exact hperm.nodup_iff.mpr (by rwa [List.append_assoc] at hnd)
    simp only [ext_processClusters, hclaim, hsorted, hrest, List.map_cons,
      List.flatten_cons, List.reverse_append, List.append_assoc]

/-! ### Misc list lemmas -/

theorem flatten_filter_nonempty (l : List Cluster) :
    (((l.filter (fun c => !(c.tabIds.isEmpty))).map (·.tabIds)).flatten) =
      ((l.map (·.tabIds)).flatten) := by
  induction l with
  | nil => rfl
  | cons c rest ih =>
    by_cases hc : c.tabIds.isEmpty
    · have h0 : c.tabIds = [] := List.isEmpty_iff.mp hc
      simp [List.filter_cons, hc, h0, ih]
    · simp [List.filter_cons, hc, ih]

theorem map_id_filter (A : List Nat) (ts : List TabAnalysis) :
    (ts.filter (fun t => decide (t.id ∉ A))).map (·.id) =
      (ts.map (·.id)).filter (fun j => decide (j ∉ A)) := by
  induction ts with
  | nil => rfl
  | cons t rest ih =>
    by_cases ht : t.id ∉ A
    · have h1 : List.filter (fun t => decide (t.id ∉ A)) (t :: rest)
          = t :: List.filter (fun t => decide (t.id ∉ A)) rest := by
        simp [List.filter_cons, ht]
      have h2 : List.filter (fun j => decide (j ∉ A)) (t.id :: rest.map (·.id))
          = t.id :: List.filter (fun j => decide (j ∉ A)) (rest.map (·.id)) := by
        simp [List.filter_cons, ht]
      rw [List.map_cons, h1, h2, List.map_cons, ih]
    · have h1 : List.filter (fun t => decide (t.id ∉ A)) (t :: rest)
          = List.filter (fun t => decide (t.id ∉ A)) rest := by
        simp [List.filter_cons, ht]
      have h2 : List.filter (fun j => decide (j ∉ A)) (t.id :: rest.map (·.id))
          = List.filter (fun j => decide (j ∉ A)) (rest.map (·.id)) := by
        simp [List.filter_cons, ht]
      rw [List.map_cons, h1, h2, ih]

theorem perm_assigned_filter (A L : List Nat) (hA : A.Nodup) (hL : L.Nodup)
    (hsub : ∀ i ∈ A, i ∈ L) :
    (A ++ L.filter (fun j => decide (j ∉ A))).Perm L := by
  rw [List.perm_iff_count]
  intro j
  rw [List.count_append]
  by_cases hj : j ∈ A
  · rw [List.count_eq_one_of_mem hA hj, List.count_eq_one_of_mem hL (hsub j hj)]
    have hnot : j ∉ L.filter (fun j => decide (j ∉ A)) := by
      intro hmem
      have := (List.mem_filter.mp hmem).2
      simp only [decide_eq_true_eq] at this
      exact this hj
    rw [List.count_eq_zero.mpr hnot]
  · rw [List.count_eq_zero.mpr hj, List.count_filter (by simp [hj])]
    simp

/-! ### Structure of the validated output -/

theorem ext_validate_flatten_perm (clusters : List Cluster) (ts : List TabAnalysis)
    (h : (ts.map (·.id)).Nodup) :
    ((ext_validateAndSortClusters clusters ts).map (·.tabIds)).flatten.Perm
      (ts.map (·.id)) := by
  have hA_perm : (ext_proc clusters ts).2.Perm
      (((ext_proc clusters ts).1.map (·.tabIds)).flatten) := by
    have := ext_processClusters_assigned_perm ts (ext_named clusters) []
    simpa [ext_proc] using this
  have hA_nodup : (ext_proc clusters ts).2.Nodup :=
    ext_processClusters_assigned_nodup ts (ext_named clusters) [] List.nodup_nil
  have hA_sub : ∀ i ∈ (ext_proc clusters ts).2, i ∈ ts.map (·.id) := by
    intro i hi
    rcases ext_processClusters_assigned_valid ts (ext_named clusters) [] i hi with hv | hv
    · exact (mapGet_isSome_iff ts i).mp hv
    · cases hv
  have hfilter := perm_assigned_filter (ext_proc clusters ts).2 (ts.map (·.id))
    hA_nodup h hA_sub
  have hmapfilter : (ext_unassigned clusters ts).map (·.id) =
      (ts.map (·.id)).filter (fun j => decide (j ∉ (ext_proc clusters ts).2)) :=
    map_id_filter _ ts
  have hsortperm : ((ext_validateAndSortClusters clusters ts).map (·.tabIds)).flatten.Perm
      (((if ext_unassigned clusters ts = [] then ext_valid clusters ts
         else ext_valid clusters ts ++ [ext_otherCluster (ext_unassigned clusters ts)]).map
        (·.tabIds)).flatten) :=
    List.Perm.flatten (List.Perm.map _ (List.perm_insertionSort _ _))
  refine hsortperm.trans ?_
  by_cases hU : ext_unassigned clusters ts = []
  · rw [if_pos hU]
    have hvalid_flatten : ((ext_valid clusters ts).map (·.tabIds)).flatten =
        (((ext_proc clusters ts).1.map (·.tabIds)).flatten) :=
      flatten_filter_nonempty _
    rw [hvalid_flatten]
    have e0 : (ts.map (·.id)).filter (fun j => decide (j ∉ (ext_proc clusters ts).2)) = [] := by
      rw [← hmapfilter, hU]; rfl
    have h2 : (ext_proc clusters ts).2.Perm (ts.map (·.id)) := by
      have h3 := hfilter
      rw [e0, List.append_nil] at h3
      exact h3
    exact hA_perm.symm.trans h2
  · rw [if_neg hU]
    rw [List.map_append, List.flatten_append]
    have hvalid_flatten : ((ext_valid clusters ts).map (·.tabIds)).flatten =
        (((ext_proc clusters ts).1.map (·.tabIds)).flatten) :=
      flatten_filter_nonempty _
    rw [hvalid_flatten]
    have hother : ([ext_otherCluster (ext_unassigned clusters ts)].map (·.tabIds)).flatten
        = ((List.insertionSort analysisLe (ext_unassigned clusters ts)).map (·.id)) := by
      simp [ext_otherCluster]
    rw [hother]
    have hperm2 : ((List.insertionSort analysisLe (ext_unassigned clusters ts)).map (·.id)).Perm
        ((ext_unassigned clusters ts).map (·.id)) :=
      List.Perm.map _ (List.perm_insertionSort _ _)
    refine (List.Perm.append (hA_perm.symm) hperm2).trans ?_
    rw [hmapfilter]
    exact hfilter

theorem ext_validate_mem (clusters : List Cluster) (ts : List TabAnalysis) :
    ∀ c ∈ ext_validateAndSortClusters clusters ts,
      c ∈ ext_valid clusters ts ∨
      (ext_unassigned clusters ts ≠ [] ∧
        c = ext_otherCluster (ext_unassigned clusters ts)) := by
  intro c hc
  have hmem := (List.perm_insertionSort clusterLe _).mem_iff.mp hc
  by_cases hU : ext_unassigned clusters ts = []
  · rw [if_pos hU] at hmem
    exact Or.inl hmem
  · rw [if_neg hU] at hmem
    rcases List.mem_append.mp hmem with hmem | hmem
    · exact Or.inl hmem
    · exact Or.inr ⟨hU, by simpa using hmem⟩

theorem ext_valid_mem_facts (clusters : List Cluster) (ts : List TabAnalysis) :
    ∀ c ∈ ext_valid clusters ts,
      c.name ≠ "" ∧ c.tabIds ≠ [] ∧
      List.Sorted (tabLe ts) c.tabIds ∧
      c.clusterPriority = round1 (idsMean ts c.tabIds) ∧
      (∀ i ∈ c.tabIds, (mapGet ts i).isSome = true) := by
  intro c hc
  have hfilt := List.mem_filter.mp hc
  have hproc := ext_processClusters_mem ts (ext_named clusters) [] c hfilt.1
  rcases hproc with ⟨⟨d, hd, hname⟩, hsorted, hpri, hvalid⟩
  have hdname : d.name ≠ "" := by
    have := (List.mem_filter.mp hd).2
    simpa using this
  refine ⟨hname ▸ hdname, ?_, hsorted, hpri, hvalid⟩
  have := hfilt.2
  simpa [List.isEmpty_iff] using this

theorem sorted_other_ids (ts us : List TabAnalysis)
    (h : (ts.map (·.id)).Nodup) (hsub : ∀ t ∈ us, t ∈ ts) :
    List.Sorted (tabLe ts) ((List.insertionSort analysisLe us).map (·.id)) := by
  have hsorted : List.Sorted analysisLe (List.insertionSort analysisLe us) :=
    List.sorted_insertionSort _ _
  rw [List.Sorted, List.pairwise_map]
  refine List.Pairwise.imp_of_mem ?_ hsorted
  intro a b ha hb hle
  have ha2 : a ∈ ts := hsub a ((List.perm_insertionSort analysisLe us).mem_iff.mp ha)
  have hb2 : b ∈ ts := hsub b ((List.perm_insertionSort analysisLe us).mem_iff.mp hb)
  have hga : mapGet ts a.id = some a := mapGet_self ts h a ha2
  have hgb : mapGet ts b.id = some b := mapGet_self ts h b hb2
  have hsa : score ts a.id = a.priorityScore := by simp [score, getTab, hga]
  have hsb : score ts b.id = b.priorityScore := by simp [score, getTab, hgb]
  have hta : titleOf ts a.id = a.title := by simp [titleOf, getTab, hga]
  have htb : titleOf ts b.id = b.title := by simp [titleOf, getTab, hgb]
  show score ts a.id < score ts b.id ∨
    (score ts a.id = score ts b.id ∧ titleOf ts a.id ≤ titleOf ts b.id)
  rw [hsa, hsb, hta, htb]
  exact hle

/-! ### The two copies of validateAndSortClusters compute the same function -/

theorem claimIds_eq (ts : List TabAnalysis) :
    ∀ (ids a : List Nat), backend_claimIds ts ids a = ext_claimIds ts ids a := by
  intro ids
  induction ids with
  | nil => intro a; rfl
  | cons i rest ih =>
    intro a
    by_cases hc : (mapGet ts i).isSome = true ∧ i ∉ a
    · simp only [backend_claimIds, ext_claimIds, if_pos hc, ih]
    · simp only [backend_claimIds, ext_claimIds, if_neg hc, ih]

theorem processClusters_eq (ts : List TabAnalysis) :
    ∀ (cs : List Cluster) (a : List Nat),
      backend_processClusters ts cs a = ext_processClusters ts cs a := by
  intro cs
  induction cs with
  | nil => intro a; rfl
  | cons c rest ih =>
    intro a
    simp only [backend_processClusters, ext_processClusters, claimIds_eq, ih]

theorem validateAndSortClusters_eq (clusters : List Cluster) (ts : List TabAnalysis) :
    backend_validateAndSortClusters clusters ts = ext_validateAndSortClusters clusters ts := by
  unfold backend_validateAndSortClusters ext_validateAndSortClusters
    backend_valid ext_valid backend_unassigned ext_unassigned
    backend_proc ext_proc backend_named ext_named
    backend_otherCluster ext_otherCluster
  rw [processClusters_eq]

/-! ### Re-validation is the identity on covering outputs -/

theorem ext_validate_fixpoint (clusters : List Cluster) (ts : List TabAnalysis)
    (hU : ext_unassigned clusters ts = []) :
    ext_validateAndSortClusters (ext_validateAndSortClusters clusters ts) ts
      = ext_validateAndSortClusters clusters ts := by
  have hstep : ∀ Y : List Cluster, ext_unassigned Y ts = [] →
      ext_validateAndSortClusters Y ts = List.insertionSort clusterLe (ext_valid Y ts) := by
    intro Y hY
    unfold ext_validateAndSortClusters
    rw [if_pos hY]
  have hVdef := hstep clusters hU
  have hmemW : ∀ c ∈ ext_validateAndSortClusters clusters ts, c ∈ ext_valid clusters ts := by
    intro c hc
    rw [hVdef] at hc
    exact (List.perm_insertionSort clusterLe _).mem_iff.mp hc
  have hfacts : ∀ c ∈ ext_validateAndSortClusters clusters ts,
      c.name ≠ "" ∧ c.tabIds ≠ [] ∧ List.Sorted (tabLe ts) c.tabIds ∧
      c.clusterPriority = round1 (idsMean ts c.tabIds) ∧
      (∀ i ∈ c.tabIds, (mapGet ts i).isSome = true) :=
    fun c hc => ext_valid_mem_facts clusters ts c (hmemW c hc)
  have hWperm : (((ext_validateAndSortClusters clusters ts).map (·.tabIds)).flatten).Perm
      (ext_proc clusters ts).2 := by
    have h1 : (((ext_validateAndSortClusters clusters ts).map (·.tabIds)).flatten).Perm
        (((ext_valid clusters ts).map (·.tabIds)).flatten) := by
      rw [hVdef]
      exact List.Perm.flatten (List.Perm.map _ (List.perm_insertionSort clusterLe _))
    unfold ext_valid at h1
    rw [flatten_filter_nonempty] at h1
    have h2 : (ext_proc clusters ts).2.Perm
        (((ext_proc clusters ts).1.map (·.tabIds)).flatten) := by
      have := ext_processClusters_assigned_perm ts (ext_named clusters) []
      simpa [ext_proc] using this
    exact h1.trans h2.symm
  have hWnodup : (((ext_validateAndSortClusters clusters ts).map (·.tabIds)).flatten).Nodup :=
    hWperm.nodup_iff.mpr
      (ext_processClusters_assigned_nodup ts (ext_named clusters) [] List.nodup_nil)
  have hnamed2 : ext_named (ext_validateAndSortClusters clusters ts)
      = ext_validateAndSortClusters clusters ts :=
    List.filter_eq_self.mpr (fun c hc => by simpa using (hfacts c hc).1)
  have hproc2 : ext_proc (ext_validateAndSortClusters clusters ts) ts
      = (ext_validateAndSortClusters clusters ts,
         (((ext_validateAndSortClusters clusters ts).map (·.tabIds)).flatten).reverse) := by
    unfold ext_proc
    rw [hnamed2]
    rw [ext_processClusters_of_valid ts _ []
      (fun c hc => (hfacts c hc).2.2.1)
      (fun c hc => (hfacts c hc).2.2.2.2)
      (by rw [List.append_nil]; exact hWnodup)]
    rw [List.append_nil]
    have hmap : (ext_validateAndSortClusters clusters ts).map (fun c =>
        { name := c.name, description := c.description, tabIds := c.tabIds,
          clusterPriority := round1 (idsMean ts c.tabIds) })
        = ext_validateAndSortClusters clusters ts := by
      refine (List.map_congr_left ?_).trans
        (List.map_id (ext_validateAndSortClusters clusters ts))
      intro c hc
      have hp := (hfacts c hc).2.2.2.1
      cases c with
      | mk n d ids p =>
        simp only [id_eq, Cluster.mk.injEq, true_and, and_true]
        simpa using hp.symm
    rw [hmap]
  have hvalid2 : ext_valid (ext_validateAndSortClusters clusters ts) ts
      = ext_validateAndSortClusters clusters ts := by
    unfold ext_valid
    rw [hproc2]
    exact List.filter_eq_self.mpr (fun c hc => by
      have := (hfacts c hc).2.1
      simpa [List.isEmpty_iff] using this)
  have hun2 : ext_unassigned (ext_validateAndSortClusters clusters ts) ts = [] := by
    unfold ext_unassigned
    rw [hproc2]
    have hcongr : ts.filter (fun t => decide (t.id ∉
        (((ext_validateAndSortClusters clusters ts).map (·.tabIds)).flatten).reverse))
        = ts.filter (fun t => decide (t.id ∉ (ext_proc clusters ts).2)) := by
      apply List.filter_congr
      intro t _
      refine decide_eq_decide.mpr ?_
      constructor
      · intro hnot hmem
        exact hnot (List.mem_reverse.mpr (hWperm.mem_iff.mpr hmem))
      · intro hnot hmem
        exact hnot (hWperm.mem_iff.mp (List.mem_reverse.mp hmem))
    rw [hcongr]
    exact hU
  rw [hstep _ hun2, hvalid2]
  apply List.Sorted.insertionSort_eq
  rw [hVdef]
  exact List.sorted_insertionSort clusterLe _

/-! ### Facts about the fallback clustering output -/

theorem fallback_post_mem (ts : List TabAnalysis) (gs : List (String × Cluster)) :
    ∀ c ∈ List.insertionSort clusterLe
      (((gs.map Prod.snd).filter (fun c => !(c.tabIds.isEmpty))).map (fun c =>
        let sorted := List.insertionSort (fbLe ts) c.tabIds
        { c with tabIds := sorted, clusterPriority := fbMean ts sorted })),
      List.Sorted (fbLe ts) c.tabIds ∧ c.clusterPriority = fbMean ts c.tabIds := by
  intro c hc
  have hc2 := (List.perm_insertionSort clusterLe _).mem_iff.mp hc
  rcases List.mem_map.mp hc2 with ⟨pre, _, rfl⟩
  exact ⟨List.sorted_insertionSort _ _, rfl⟩

theorem ext_fallback_mem_facts (ts : List TabAnalysis) :
    ∀ c ∈ ext_fallbackClustering ts,
      List.Sorted (fbLe ts) c.tabIds ∧ c.clusterPriority = fbMean ts c.tabIds :=
  fun c hc => fallback_post_mem ts (ts.foldl ext_addToGroups []) c hc

theorem backend_fallback_mem_facts (ts : List TabAnalysis) :
    ∀ c ∈ backend_fallbackClustering ts,
      List.Sorted (fbLe ts) c.tabIds ∧ c.clusterPriority = fbMean ts c.tabIds :=
  fun c hc => fallback_post_mem ts (ts.foldl backend_addToGroups []) c hc

/-! ## Claims -/

/-- C1: for every batch, after cluster validation/conflict resolution runs on a
candidate cluster list (whether it came from the inference provider or from
the deterministic domain-based fallback — any candidate list is covered by the
universally quantified `clusters`), the union of tabIds across the final
clusters is exactly the set of input TabAnalysis ids (stated as a permutation
of the input id list), and no id appears in more than one cluster (the
concatenation of all members is duplicate-free).  Holds for both duplicated
implementations. -/
theorem C1_no_tab_loss_no_duplication (clusters : List Cluster) (ts : List TabAnalysis)
    (h : (ts.map (·.id)).Nodup) :
    (((ext_validateAndSortClusters clusters ts).map (·.tabIds)).flatten.Perm
      (ts.map (·.id)) ∧
     ((ext_validateAndSortClusters clusters ts).map (·.tabIds)).flatten.Nodup) ∧
    (((backend_validateAndSortClusters clusters ts).map (·.tabIds)).flatten.Perm
      (ts.map (·.id)) ∧
     ((backend_validateAndSortClusters clusters ts).map (·.tabIds)).flatten.Nodup) := by
  have hp := ext_validate_flatten_perm clusters ts h
  have hn := hp.nodup_iff.mpr h
  refine ⟨⟨hp, hn⟩, ?_⟩
  rw [validateAndSortClusters_eq]
  exact ⟨hp, hn⟩

def c1ts : List TabAnalysis :=
  [{ id := 1, title := "A", url := "https://a.com", summary := "", priorityScore := 2,
     priorityRationale := "", topics := [], error := none },
   { id := 2, title := "B", url := "https://b.com", summary := "", priorityScore := 1,
     priorityRationale := "", topics := [], error := none }]

def c1cs : List Cluster :=
  [{ name := "X", description := "d", tabIds := [2, 9], clusterPriority := 0 }]

theorem C1_witness :
    (c1ts.map (·.id)).Nodup ∧
    ((ext_validateAndSortClusters c1cs c1ts).map (·.tabIds)).flatten.Perm
      (c1ts.map (·.id)) :=
  ⟨by decide, ((C1_no_tab_loss_no_duplication c1cs c1ts (by decide)).1).1⟩

/-- C2 (amended): for every analyzed tab the final priorityScore is an integer
in [1, 5]; a parsed score equal to the NONZERO integer n is clamped to
min 5 (max 1 n) (so 7 ↦ 5 and −1 ↦ 1), while a parsed 0 is falsy in the JS
expression `parseInt(...) || 3` and maps to the DEFAULT 3 (not to the nearest
bound 1 as the original claim states), and a non-numeric or absent score maps
to 3. -/
theorem C2_score_clamping (t : TabData) (o : AnalyzeOutcome) (bo : BackendTabOutcome)
    (p : ParsedAnalysis) (n : ℤ) :
    (1 ≤ (ext_analyzeAndPrioritizeTab t o).priorityScore ∧
      (ext_analyzeAndPrioritizeTab t o).priorityScore ≤ 5) ∧
    (∀ a : TabAnalysis, backend_analyzeAndPrioritizeTab t bo = Except.ok a →
      1 ≤ a.priorityScore ∧ a.priorityScore ≤ 5) ∧
    (ext_analyzeAndPrioritizeTab t (AnalyzeOutcome.parsed p)).priorityScore
      = clampScore p.priorityScore ∧
    (n ≠ 0 → clampScore (some n) = min 5 (max 1 n)) ∧
    clampScore none = 3 ∧
    clampScore (some 0) = 3 := by
  have hrange : ∀ o2 : Option Int, 1 ≤ clampScore o2 ∧ clampScore o2 ≤ 5 := by
    intro o2
    unfold clampScore intOr3
    rcases o2 with _ | m
    · simp
    · dsimp only
      rw [Int.min_def, Int.max_def]
      split_ifs <;> omega
  refine ⟨?_, ?_, rfl, ?_, rfl, rfl⟩
  · rcases o with _ | p2
    · exact ⟨by norm_num [ext_analyzeAndPrioritizeTab], by norm_num [ext_analyzeAndPrioritizeTab]⟩
    · exact hrange p2.priorityScore
  · intro a ha
    rcases bo with m | ⟨text, p2⟩
    · simp [backend_analyzeAndPrioritizeTab] at ha
    · rcases p2 with _ | p3
      · simp only [backend_analyzeAndPrioritizeTab, Except.ok.injEq] at ha
        rw [← ha]
        norm_num
      · simp only [backend_analyzeAndPrioritizeTab, Except.ok.injEq] at ha
        rw [← ha]
        exact hrange p3.priorityScore
  · intro hn
    show min 5 (max 1 (intOr3 (some n))) = min 5 (max 1 n)
    have h0 : intOr3 (some n) = n := by simp [intOr3, hn]
    rw [h0]

def c2tab : TabData :=
  { id := 1, title := "t", url := "https://t.com", metaDescription := "",
    headings := [], textContent := "" }

theorem C2_witness :
    (7 : ℤ) ≠ 0 ∧ clampScore (some 7) = min 5 (max 1 7) :=
  ⟨by decide,
   (C2_score_clamping c2tab AnalyzeOutcome.failure (BackendTabOutcome.requestError "e")
     { summary := none, priorityScore := none, priorityRationale := none, topics := none }
     7).2.2.2.1 (by decide)⟩

/-- C2 counterexample: the claim asserts that a parsed numeric score outside
[1,5] is clamped to the nearest bound with 0 mapping to 1; on the code a
parsed 0 is falsy in `parseInt(parsed.priorityScore) || 3` and yields 3. -/
theorem C2_counterexample :
    (ext_analyzeAndPrioritizeTab c2tab (AnalyzeOutcome.parsed
      { summary := none, priorityScore := some 0, priorityRationale := none,
        topics := none })).priorityScore = 3 ∧ (3 : ℤ) ≠ 1 := by
  exact ⟨by decide, by decide⟩

/-- C3 (amended): a per-tab failure is local (each batch entry depends only on
that tab's own outcome) and always yields priorityScore 3, but the degraded
record's shape depends on the failure mode and the implementation, and no mode
matches the claim's full conjunction.  Backend request failure (provider
unreachable, non-2xx, thrown error), caught by the batch handler: summary from
title + metaDescription, EMPTY topics, error set.  Backend unparseable 2xx
response: summary is the first 200 characters of the raw response text (NOT
title + metaDescription), topics from the word heuristic, and NO error field
is set — the record is returned as a success and the batch counts no error.
Extension catch branch (any failure, unparseable output included): summary
from title + metaDescription, topics from the vocabulary heuristic, and its
result record has no error field at all. -/
theorem C3_degraded_analysis (t : TabData) (e : String) (text : String)
    (f : TabData → BackendTabOutcome) (tabs1 tabs2 : List TabData) :
    ((backendDegraded t e).summary
        = t.title ++ " - " ++ strOrD t.metaDescription "Web page content" ∧
     (backendDegraded t e).priorityScore = 3 ∧
     (backendDegraded t e).topics = [] ∧
     (backendDegraded t e).error = some e) ∧
    backend_analyzeAndPrioritizeTab t (BackendTabOutcome.content text none)
      = Except.ok
        { id := t.id, title := t.title, url := t.url,
          summary := text.take 200,
          priorityScore := 3,
          priorityRationale := "Unable to determine priority",
          topics := extractTopics text t,
          error := none } ∧
    ((ext_analyzeAndPrioritizeTab t AnalyzeOutcome.failure).summary
        = t.title ++ " - " ++ strOrD t.metaDescription "Web page content" ∧
     (ext_analyzeAndPrioritizeTab t AnalyzeOutcome.failure).priorityScore = 3 ∧
     (ext_analyzeAndPrioritizeTab t AnalyzeOutcome.failure).topics
        = extractBasicTopics t) ∧
    backend_analyzeTabsSummaries f (tabs1 ++ t :: tabs2)
      = backend_analyzeTabsSummaries f tabs1 ++
        (match backend_analyzeAndPrioritizeTab t (f t) with
         | .ok a => a
         | .error e2 => backendDegraded t e2) :: backend_analyzeTabsSummaries f tabs2 := by
  refine ⟨⟨rfl, rfl, rfl, rfl⟩, rfl, ⟨rfl, rfl, rfl⟩, ?_⟩
  unfold backend_analyzeTabsSummaries
  rw [List.map_append, List.map_cons]

def c3tab : TabData :=
  { id := 7, title := "technology tutorial", url := "https://t.com",
    metaDescription := "", headings := [], textContent := "" }

set_option maxRecDepth 4096 in
/-- C3 counterexample, refuting the claimed conjunction on two in-scope
failure modes of the backend.  Request failure ("boom"): the batch entry has
topics [] although the keyword-extraction heuristic would produce
["technology", "tutorial"] — so "topics come from the heuristic" fails.
Unparseable 2xx response ("no json here"): the batch entry has error = none
and summary = "no json here" (the response prefix), not the
title + metaDescription summary — so "error field is set" and "summary built
from title+metaDescription" fail. -/
theorem C3_counterexample :
    (backend_analyzeTabsSummaries (fun _ => BackendTabOutcome.requestError "boom")
      [c3tab]).map (·.topics) = [[]] ∧
    extractBasicTopics c3tab = ["technology", "tutorial"] ∧
    ([] : List String) ≠ ["technology", "tutorial"] ∧
    (backend_analyzeTabsSummaries
      (fun _ => BackendTabOutcome.content "no json here" none) [c3tab]).map (·.error)
      = [none] ∧
    (backend_analyzeTabsSummaries
      (fun _ => BackendTabOutcome.content "no json here" none) [c3tab]).map (·.summary)
      = ["no json here"] ∧
    ("no json here" : String)
      ≠ c3tab.title ++ " - " ++ strOrD c3tab.metaDescription "Web page content" := by
  refine ⟨rfl, by decide, by decide, rfl, by decide, by decide⟩

/-- C5 (amended): only the BACKEND returns the single generic "All Tabs"
cluster for fewer than 2 analyses (priority = the single tab's score with the
JS falsy quirk 0 ↦ 3, or 3 for an empty batch); the extension instead routes
small batches to the domain fallback, which returns NO cluster at all for an
empty input. -/
theorem C5_small_batch (o : ClusterOutcome) (ts : List TabAnalysis) (hk : Bool)
    (h : ts.length < 2) :
    backend_clusterAndSortTabs o ts = [allTabsCluster ts] ∧
    (allTabsCluster ts).name = "All Tabs" ∧
    (allTabsCluster ts).tabIds = ts.map (·.id) ∧
    ext_clusterAndSortTabs hk o ts = ext_fallbackClustering ts := by
  refine ⟨?_, rfl, rfl, ?_⟩
  · unfold backend_clusterAndSortTabs
    rw [if_pos h]
  · unfold ext_clusterAndSortTabs
    rw [if_pos (Or.inr h)]

def c5t : TabAnalysis :=
  { id := 4, title := "T", url := "https://t.com", summary := "", priorityScore := 2,
    priorityRationale := "", topics := [], error := none }

theorem C5_witness :
    [c5t].length < 2 ∧
    backend_clusterAndSortTabs ClusterOutcome.providerFailure [c5t]
      = [allTabsCluster [c5t]] :=
  ⟨by decide,
   (C5_small_batch ClusterOutcome.providerFailure [c5t] true (by decide)).1⟩

/-- C5 counterexample: the extension path on an empty input returns zero
clusters, not exactly one cluster containing all input ids. -/
theorem C5_counterexample :
    ([] : List TabAnalysis).length < 2 ∧
    (ext_clusterAndSortTabs true ClusterOutcome.providerFailure []).length ≠ 1 := by
  exact ⟨by decide, by decide⟩

/-- C9: on every path — validation of a provider candidate list (either
implementation) and the domain fallback (either implementation) — the final
cluster sequence is non-decreasing in clusterPriority. -/
theorem C9_cluster_order (clusters : List Cluster) (ts : List TabAnalysis) :
    List.Sorted clusterLe (ext_validateAndSortClusters clusters ts) ∧
    List.Sorted clusterLe (backend_validateAndSortClusters clusters ts) ∧
    List.Sorted clusterLe (ext_fallbackClustering ts) ∧
    List.Sorted clusterLe (backend_fallbackClustering ts) := by
  refine ⟨?_, ?_, ?_, ?_⟩ <;> exact List.sorted_insertionSort clusterLe _

/-- C10: the two duplicated implementations of cluster validation are
extensionally equal: for every candidate cluster (array) list and every
analysis set, the backend copy and the extension copy produce the same final
cluster sequence.  (For a non-array candidate argument each copy delegates to
its own fallbackClustering, which is outside validation itself.) -/
theorem C10_impl_equivalence (clusters : List Cluster) (ts : List TabAnalysis) :
    backend_validateAndSortClusters clusters ts
      = ext_validateAndSortClusters clusters ts :=
  validateAndSortClusters_eq clusters ts

/-- C4 (amended): clusters kept from the candidate list carry clusterPriority
equal to the rounded (1 decimal) mean of their members' scores; the
synthesized "Other" cluster carries the UNROUNDED mean of its members, and
fallback clusters carry the UNROUNDED mean (with the missing/zero-score
fallback to 3 of the fallback comparator's score reader). -/
theorem C4_cluster_priority (clusters : List Cluster) (ts : List TabAnalysis) :
    (∀ c ∈ ext_validateAndSortClusters clusters ts,
      c.clusterPriority = round1 (idsMean ts c.tabIds) ∨
      c = ext_otherCluster (ext_unassigned clusters ts)) ∧
    (ext_otherCluster (ext_unassigned clusters ts)).clusterPriority
      = analysesMean (ext_unassigned clusters ts) ∧
    (∀ c ∈ ext_fallbackClustering ts, c.clusterPriority = fbMean ts c.tabIds) ∧
    (∀ c ∈ backend_fallbackClustering ts, c.clusterPriority = fbMean ts c.tabIds) := by
  refine ⟨?_, rfl, fun c hc => (ext_fallback_mem_facts ts c hc).2,
    fun c hc => (backend_fallback_mem_facts ts c hc).2⟩
  intro c hc
  rcases ext_validate_mem clusters ts c hc with hin | ⟨_, rfl⟩
  · exact Or.inl (ext_valid_mem_facts clusters ts c hin).2.2.2.1
  · exact Or.inr rfl

def c4wts : List TabAnalysis :=
  [{ id := 1, title := "A", url := "https://x.com", summary := "", priorityScore := 3,
     priorityRationale := "", topics := [], error := none }]

def c4wc : Cluster :=
  { name := "X", description := "Pages from x.com", tabIds := [1],
    clusterPriority := fbMean c4wts [1] }

theorem C4_witness :
    c4wc ∈ ext_fallbackClustering c4wts ∧
    c4wc.clusterPriority = fbMean c4wts c4wc.tabIds :=
  ⟨List.Mem.head _,
   (C4_cluster_priority [] c4wts).2.2.1 c4wc (List.Mem.head _)⟩

def c4xt1 : TabAnalysis :=
  { id := 1, title := "A", url := "https://y.com", summary := "", priorityScore := 1,
    priorityRationale := "", topics := [], error := none }

def c4xt2 : TabAnalysis :=
  { id := 2, title := "B", url := "https://y.com", summary := "", priorityScore := 3,
    priorityRationale := "", topics := [], error := none }

def c4xt3 : TabAnalysis :=
  { id := 3, title := "C", url := "https://y.com", summary := "", priorityScore := 4,
    priorityRationale := "", topics := [], error := none }

def c4xts : List TabAnalysis := [c4xt1, c4xt2, c4xt3]

def c4xother : Cluster :=
  { name := "Other", description := "Uncategorized tabs", tabIds := [1, 2, 3],
    clusterPriority := analysesMean c4xts }

/-- C4 counterexample: a batch of three tabs with scores 1, 3, 4 and no
candidate clusters yields a final result consisting of the synthesized
"Other" cluster whose clusterPriority is the unrounded mean 8/3, while the
mean rounded to 1 decimal place is 2.7; so not every final cluster carries
the rounded mean. -/
theorem C4_counterexample :
    ext_validateAndSortClusters [] c4xts = [c4xother] ∧
    c4xother.clusterPriority ≠ round1 (idsMean c4xts c4xother.tabIds) := by
  constructor
  · rfl
  · have ha : analysesMean c4xts = 8 / 3 := by
      norm_num [analysesMean, c4xts, c4xt1, c4xt2, c4xt3]
    have s1 : score c4xts 1 = 1 := rfl
    have s2 : score c4xts 2 = 3 := rfl
    have s3 : score c4xts 3 = 4 := rfl
    have hb : idsMean c4xts [1, 2, 3] = 8 / 3 := by
      norm_num [idsMean, s1, s2, s3]
    show analysesMean c4xts ≠ round1 (idsMean c4xts [1, 2, 3])
    rw [ha, hb]
    norm_num [round1]

/-- C6 (amended): on the validation path (either implementation) every final
cluster's tabIds — including the synthesized "Other" cluster — are sorted
non-decreasing by the referenced analysis's priorityScore with ties broken
non-decreasing by title; on the FALLBACK path members are sorted by score
only (with a missing/zero score read as 3), and equal-score members keep
insertion order rather than title order. -/
theorem C6_within_cluster_order (clusters : List Cluster) (ts : List TabAnalysis)
    (h : (ts.map (·.id)).Nodup) :
    (∀ c ∈ ext_validateAndSortClusters clusters ts, List.Sorted (tabLe ts) c.tabIds) ∧
    (∀ c ∈ backend_validateAndSortClusters clusters ts, List.Sorted (tabLe ts) c.tabIds) ∧
    (∀ c ∈ ext_fallbackClustering ts, List.Sorted (fbLe ts) c.tabIds) ∧
    (∀ c ∈ backend_fallbackClustering ts, List.Sorted (fbLe ts) c.tabIds) := by
  have hval : ∀ c ∈ ext_validateAndSortClusters clusters ts,
      List.Sorted (tabLe ts) c.tabIds := by
    intro c hc
    rcases ext_validate_mem clusters ts c hc with hin | ⟨_, rfl⟩
    · exact (ext_valid_mem_facts clusters ts c hin).2.2.1
    · show List.Sorted (tabLe ts)
        ((List.insertionSort analysisLe (ext_unassigned clusters ts)).map (·.id))
      apply sorted_other_ids ts _ h
      intro t ht
      exact (List.mem_filter.mp ht).1
  refine ⟨hval, ?_, fun c hc => (ext_fallback_mem_facts ts c hc).1,
    fun c hc => (backend_fallback_mem_facts ts c hc).1⟩
  rw [validateAndSortClusters_eq]
  exact hval

def c6wts : List TabAnalysis :=
  [{ id := 1, title := "A", url := "https://w.com", summary := "", priorityScore := 2,
     priorityRationale := "", topics := [], error := none }]

def c6wc : Cluster :=
  { name := "W", description := "Pages from w.com", tabIds := [1],
    clusterPriority := fbMean c6wts [1] }

theorem C6_witness :
    (c6wts.map (·.id)).Nodup ∧ List.Sorted (fbLe c6wts) c6wc.tabIds :=
  ⟨by decide,
   (C6_within_cluster_order [] c6wts (by decide)).2.2.1 c6wc (List.Mem.head _)⟩

def c6ts : List TabAnalysis :=
  [{ id := 1, title := "B", url := "https://z.com", summary := "", priorityScore := 2,
     priorityRationale := "", topics := [], error := none },
   { id := 2, title := "A", url := "https://z.com", summary := "", priorityScore := 2,
     priorityRationale := "", topics := [], error := none }]

/-- C6 counterexample: two same-domain tabs with equal scores and titles "B"
(id 1, listed first) and "A" (id 2) fall back to a single domain cluster with
member order [1, 2] — the stable score-only sort keeps insertion order — even
though sorting non-decreasing by title would require id 2 (title "A") before
id 1 (title "B"). -/
theorem C6_counterexample :
    (ext_fallbackClustering c6ts).map (·.tabIds) = [[1, 2]] ∧
    score c6ts 1 = score c6ts 2 ∧
    titleOf c6ts 1 = "B" ∧ titleOf c6ts 2 = "A" ∧
    ¬ tabLe c6ts 1 2 := by
  refine ⟨by decide, by decide, by decide, by decide, ?_⟩
  intro hle
  rcases hle with hlt | ⟨_, hstr⟩
  · exact absurd hlt (by decide)
  · have h1 : titleOf c6ts 1 = "B" := by decide
    have h2 : titleOf c6ts 2 = "A" := by decide
    rw [h1, h2, String.le_iff_toList_le] at hstr
    exact absurd hstr (by decide)

/-- C7 (amended): no exception escapes the clustering component on a response
with no recoverable JSON.  In the extension, the no-JSON path and the
provider-failure path both yield exactly `fallbackClustering(tabSummaries)`.
In the backend, `parseClusteringResponse` itself RETURNS the fallback
clustering on a no-JSON response, and the caller then passes that result
through `validateAndSortClusters` — so the no-JSON result is the VALIDATED
fallback, which can differ from the provider-failure result (the raw
fallback) in rounding and tie order. -/
theorem C7_parse_failure (hk : Bool) (ts : List TabAnalysis) (h : 2 ≤ ts.length) :
    ext_clusterAndSortTabs hk ClusterOutcome.noJson ts = ext_fallbackClustering ts ∧
    ext_clusterAndSortTabs hk ClusterOutcome.providerFailure ts
      = ext_fallbackClustering ts ∧
    backend_clusterAndSortTabs ClusterOutcome.noJson ts
      = backend_validateAndSortClusters (backend_fallbackClustering ts) ts ∧
    backend_clusterAndSortTabs ClusterOutcome.providerFailure ts
      = backend_fallbackClustering ts := by
  have hnot : ¬ ts.length < 2 := by omega
  refine ⟨?_, ?_, ?_, ?_⟩
  · unfold ext_clusterAndSortTabs
    split
    · rfl
    · rfl
  · unfold ext_clusterAndSortTabs
    split
    · rfl
    · rfl
  · unfold backend_clusterAndSortTabs
    rw [if_neg hnot]
  · unfold backend_clusterAndSortTabs
    rw [if_neg hnot]

def c7wts : List TabAnalysis :=
  [{ id := 1, title := "A", url := "https://a.org", summary := "", priorityScore := 1,
     priorityRationale := "", topics := [], error := none },
   { id := 2, title := "B", url := "https://b.org", summary := "", priorityScore := 2,
     priorityRationale := "", topics := [], error := none }]

theorem C7_witness :
    2 ≤ c7wts.length ∧
    ext_clusterAndSortTabs true ClusterOutcome.noJson c7wts
      = ext_fallbackClustering c7wts :=
  ⟨by decide, (C7_parse_failure true c7wts (by decide)).1⟩

def c7t1 : TabAnalysis :=
  { id := 1, title := "A", url := "https://x.com", summary := "", priorityScore := 2,
    priorityRationale := "", topics := [], error := none }

def c7t2 : TabAnalysis :=
  { id := 2, title := "B", url := "https://x.com", summary := "", priorityScore := 3,
    priorityRationale := "", topics := [], error := none }

def c7t3 : TabAnalysis :=
  { id := 3, title := "C", url := "https://x.com", summary := "", priorityScore := 5,
    priorityRationale := "", topics := [], error := none }

def c7ts : List TabAnalysis := [c7t1, c7t2, c7t3]

def c7fbc : Cluster :=
  { name := "X", description := "Pages from x.com", tabIds := [1, 2, 3],
    clusterPriority := fbMean c7ts [1, 2, 3] }

def c7vc : Cluster :=
  { name := "X", description := "Pages from x.com", tabIds := [1, 2, 3],
    clusterPriority := round1 (idsMean c7ts [1, 2, 3]) }

/-- C7 counterexample: for three same-domain tabs with scores 2, 3, 5 the
backend's no-JSON path yields the validated fallback cluster with the ROUNDED
mean 3.3, while its provider-failure path yields the raw fallback cluster with
the unrounded mean 10/3 — so the no-JSON parse failure is NOT mapped to the
same fallback result as a provider failure. -/
theorem C7_counterexample :
    backend_clusterAndSortTabs ClusterOutcome.noJson c7ts
      ≠ backend_clusterAndSortTabs ClusterOutcome.providerFailure c7ts := by
  have h1 : backend_clusterAndSortTabs ClusterOutcome.noJson c7ts
      = backend_validateAndSortClusters (backend_fallbackClustering c7ts) c7ts := by
    unfold backend_clusterAndSortTabs
    rw [if_neg (by decide)]
  have h2 : backend_clusterAndSortTabs ClusterOutcome.providerFailure c7ts
      = backend_fallbackClustering c7ts := by
    unfold backend_clusterAndSortTabs
    rw [if_neg (by decide)]
  have hfb : backend_fallbackClustering c7ts = [c7fbc] := rfl
  have hval : backend_validateAndSortClusters [c7fbc] c7ts = [c7vc] := rfl
  have hm1 : mapGet c7ts 1 = some c7t1 := rfl
  have hm2 : mapGet c7ts 2 = some c7t2 := rfl
  have hm3 : mapGet c7ts 3 = some c7t3 := rfl
  have hne : round1 (idsMean c7ts [1, 2, 3]) ≠ fbMean c7ts [1, 2, 3] := by
    norm_num [round1, idsMean, fbMean, score, scoreOr3, getTab, hm1, hm2, hm3,
      c7t1, c7t2, c7t3]
  intro hEq
  rw [h1, h2, hfb, hval] at hEq
  injection hEq with hhead _
  have h5 : c7vc.clusterPriority = c7fbc.clusterPriority :=
    congrArg Cluster.clusterPriority hhead
  simp only [c7vc, c7fbc] at h5
  exact hne h5

/-- C8 (amended): the Ordering & Conflict Resolver is idempotent on every
candidate list whose surviving clusters already claim every analysis id (no
"Other" cluster is synthesized); in general re-running it on its own output
replaces only a synthesized Other cluster's unrounded mean priority by the
rounded mean.  Holds for both duplicated implementations. -/
theorem C8_validation_idempotence (clusters : List Cluster) (ts : List TabAnalysis)
    (h : ext_unassigned clusters ts = []) :
    ext_validateAndSortClusters (ext_validateAndSortClusters clusters ts) ts
      = ext_validateAndSortClusters clusters ts ∧
    backend_validateAndSortClusters (backend_validateAndSortClusters clusters ts) ts
      = backend_validateAndSortClusters clusters ts := by
  refine ⟨ext_validate_fixpoint clusters ts h, ?_⟩
  rw [validateAndSortClusters_eq, validateAndSortClusters_eq]
  exact ext_validate_fixpoint clusters ts h

def c8wts : List TabAnalysis :=
  [{ id := 1, title := "A", url := "https://q.com", summary := "", priorityScore := 2,
     priorityRationale := "", topics := [], error := none }]

def c8wcs : List Cluster :=
  [{ name := "Q", description := "d", tabIds := [1], clusterPriority := 0 }]

theorem C8_witness :
    ext_unassigned c8wcs c8wts = [] ∧
    ext_validateAndSortClusters (ext_validateAndSortClusters c8wcs c8wts) c8wts
      = ext_validateAndSortClusters c8wcs c8wts :=
  ⟨by decide, (C8_validation_idempotence c8wcs c8wts (by decide)).1⟩

def c8t1 : TabAnalysis :=
  { id := 1, title := "A", url := "https://x.com", summary := "", priorityScore := 1,
    priorityRationale := "", topics := [], error := none }

def c8t2 : TabAnalysis :=
  { id := 2, title := "B", url := "https://x.com", summary := "", priorityScore := 2,
    priorityRationale := "", topics := [], error := none }

def c8t3 : TabAnalysis :=
  { id := 3, title := "C", url := "https://x.com", summary := "", priorityScore := 4,
    priorityRationale := "", topics := [], error := none }

def c8ts : List TabAnalysis := [c8t1, c8t2, c8t3]

theorem c8_first_run : ext_validateAndSortClusters [] c8ts
    = [{ name := "Other", description := "Uncategorized tabs", tabIds := [1, 2, 3],
         clusterPriority := 7/3 }] := by
  norm_num [ext_validateAndSortClusters, ext_valid, ext_unassigned, ext_proc, ext_named,
    ext_processClusters, ext_claimIds, ext_otherCluster, analysesMean, c8ts,
    c8t1, c8t2, c8t3,
    List.insertionSort, List.orderedInsert, lexLe, keyLe, List.filter, mapGet,
    List.find?, clusterLe]

theorem c8_second_run :
    ext_validateAndSortClusters (ext_validateAndSortClusters [] c8ts) c8ts
    = [{ name := "Other", description := "Uncategorized tabs", tabIds := [1, 2, 3],
         clusterPriority := 23/10 }] := by
  rw [c8_first_run]
  have m1 : mapGet c8ts 1 = some c8t1 := rfl
  have m2 : mapGet c8ts 2 = some c8t2 := rfl
  have m3 : mapGet c8ts 3 = some c8t3 := rfl
  norm_num [ext_validateAndSortClusters, ext_valid, ext_unassigned, ext_proc, ext_named,
    ext_processClusters, ext_claimIds, ext_otherCluster, analysesMean, idsMean, round1,
    score, titleOf, getTab, m1, m2, m3, c8t1, c8t2, c8t3,
    List.insertionSort, List.orderedInsert, lexLe, keyLe, List.filter, clusterLe]

/-- C8 counterexample: for three tabs with scores 1, 2, 4 and an empty
candidate list the first validation yields the Other cluster with unrounded
priority 7/3; re-running validation on that output recomputes the priority as
the rounded mean 2.3, so the second run's result is NOT identical to its
input. -/
theorem C8_counterexample :
    ext_validateAndSortClusters (ext_validateAndSortClusters [] c8ts) c8ts
      ≠ ext_validateAndSortClusters [] c8ts := by
  rw [c8_second_run, c8_first_run]
  norm_num

end TabsAI
